import Mathlib

/-!
Shallow embedding of the `JobScript` job abstraction and pipeline
composition engine of `cdpipelines` (files `cdpipelines/general.py` and
`cdpipelines/rnaseq.py`), together with theorems settling the frozen
claims about its specification.

Modelling conventions:
* Each Python `f.write(...)` appends one `Chunk` to the script; chunks
  that the claims reason about structurally (the batched `rsync` copy,
  the `rm -r` of temp files, the `h_vmem` directive) carry their
  arguments, all other writes are `Chunk.raw` literal text.
* Python exceptions are values of `PyErr`; a constructor or method that
  can raise returns `Except PyErr _` (or pairs the post-write state with
  `Option PyErr` where file writes that happened before the raise must
  be kept, as on a real filesystem).
* `os.path.realpath` is modelled as the identity on path strings (no
  symlink resolution); `os.makedirs` on an existing directory raises
  `OSError`, which `_make_dir` (general.py l.17-22) swallows, so
  directory creation on a string argument is a no-op here.
* Machine floats: `self.memory / float(self.threads)`
  (general.py l.166-167) is modelled as exact division in `ℚ`.
* Filesystem state consumed by the constructor (`os.path.exists` on the
  script path, the `tempfile` scratch name, the `_git_info()` string) is
  passed in as explicit arguments `scriptExists`, `scratchName`,
  `gitInfo`.
-/

/-- Python exception classes that the embedded code can raise. -/
inductive PyErr where
  | typeError
  | attributeError
  | nameError
  | assertionError
  | zeroDivisionError
  | osError
  deriving Repr, DecidableEq

/-- Dynamically typed numeric argument as passed from Python callers;
`assert type(x) is int` succeeds exactly on the `int` constructor. -/
inductive PyNum where
  | int (n : ℤ)
  | float (q : ℚ)
  | str (s : String)
  deriving Repr, DecidableEq

/-- Truthiness of an optional Python string (`None` and the empty string
are falsy). -/
def pyTruthy : Option String → Bool
  | none => false
  | some s => s ≠ ""

/-- Truthiness of an optional Python list (`None` and `[]` are falsy),
used for `if self.wait_for:` (general.py l.272). -/
def pyTruthyList : Option (List String) → Bool
  | none => false
  | some l => l ≠ []

/-- Character list of a string. -/
def strChars (s : String) : List Char := s.data

/-- Last path component: the characters after the last slash, i.e.
`os.path.split(p)[1]` of posixpath. -/
def pyBasename (p : String) : String :=
  String.mk (((strChars p).reverse.takeWhile (fun c => c ≠ '/')).reverse)

/-- Drop trailing slash characters. -/
def dropTrailingSlashes (cs : List Char) : List Char :=
  (cs.reverse.dropWhile (fun c => c = '/')).reverse

/-- Head of posixpath `os.path.split(p)[0]`: everything up to the last
slash, with trailing slashes stripped unless the head is all slashes;
the empty string when `p` has no slash. -/
def pyHeadOfSplit (p : String) : String :=
  let cs := strChars p
  if '/' ∈ cs then
    let tailLen := (cs.reverse.takeWhile (fun c => c ≠ '/')).length
    let head := cs.take (cs.length - tailLen)
    if head.all (fun c => c = '/') then String.mk head
    else String.mk (dropTrailingSlashes head)
  else ""

/-- Two-argument posixpath `os.path.join`: an absolute second component
replaces the first; otherwise the components are separated by one slash
unless the first is empty or already ends in a slash. -/
def pyJoin (a b : String) : String :=
  if (strChars b).head? = some '/' then b
  else if a = "" then b
  else if (strChars a).getLast? = some '/' then a ++ b
  else a ++ "/" ++ b

/-- Modelled `os.path.realpath`: the identity on path strings (no
symlink resolution in the model). -/
def pyRealpath (p : String) : String := p

/-- Whether `small` occurs as a prefix of `big` (character lists). -/
def charsStartWith : List Char → List Char → Bool
  | [], _ => true
  | _ :: _, [] => false
  | a :: as, b :: bs => a = b && charsStartWith as bs

/-- Whether `needle` occurs as a contiguous sublist of `hay`. -/
def charsContain (hay needle : List Char) : Bool :=
  match hay with
  | [] => needle.isEmpty
  | _ :: t => charsStartWith needle hay || charsContain t needle

/-- Python substring membership `needle in hay`. -/
def pyInStr (needle hay : String) : Bool :=
  charsContain (strChars hay) (strChars needle)

/-- Python `s.split(sep)` for a one-character separator, as used for
`modules.split(',')` (general.py l.112). -/
def splitOnCharAux (c : Char) : List Char → List Char → List String
  | [], acc => [String.mk acc.reverse]
  | x :: xs, acc =>
      if x = c then String.mk acc.reverse :: splitOnCharAux c xs []
      else splitOnCharAux c xs (x :: acc)

/-- Python `s.split(c)` (always at least one piece). -/
def pySplitChar (c : Char) (s : String) : List String :=
  splitOnCharAux c (strChars s) []

/-- Python `sep.join(l)`. -/
def pyJoinWith (sep : String) : List String → String
  | [] => ""
  | [x] => x
  | x :: y :: xs => x ++ sep ++ pyJoinWith sep (y :: xs)

/-- One chunk of text appended to a script file by a single `f.write`.
Writes whose arguments the claims inspect are kept structured:
`vmem q` is the line `#$ -l h_vmem={q}` (general.py l.166-167),
`rsync sources dest` is the batched copy
`rsync -avz \ {sources} \ {dest}` (general.py l.186-188 and l.309-311),
`rm targets` is `rm -r \ {targets}` (general.py l.199-200), and
`lnS target link` is `ln -s {target} {link}` (general.py l.233). -/
inductive Chunk where
  | raw (s : String)
  | vmem (q : ℚ)
  | rsync (sources : List String) (dest : String)
  | rm (targets : List String)
  | lnS (target link : String)
  deriving Repr, DecidableEq

/-- State of a `JobScript` object (general.py l.24-143): the fields set
by `__init__`, with the script file contents carried as the list of
chunks appended so far. -/
structure JS where
  sample_name : String
  job_suffix : String
  jobname : String
  outdir : String
  tempdir : String
  threads : ℤ
  memory : ℤ
  linkdir : Option String
  webpath : Option String
  queue : Option String
  conda_env : Option String
  modules : Option (List String)
  out : String
  err : String
  wait_for : Option (List String)
  copy_input : Bool
  input_files_to_copy : List String
  output_files_to_copy : List String
  temp_files_to_delete : List String
  softlinks : List (String × String)
  delete_sh : Bool
  links_tracklines : String
  filename : String
  script : List Chunk
  deriving Repr, DecidableEq

/-- Embedded `JobScript.__init__` (general.py l.25-143), including
`_set_filename` (l.145-157) and `_write_header` (l.159-180), in source
order.  `threads` and `memory` pass through `assert type(x) is int`
(l.97, l.100); `_make_dir(linkdir)` with `linkdir=None` calls
`os.makedirs(None)`, which raises a non-`OSError` exception (TypeError
on Python 3, AttributeError on Python 2 — modelled as `typeError`) that
`_make_dir` does not swallow (l.17-22, l.103).  `scriptExists` is the
value of `os.path.exists(self.filename)` (l.154), `scratchName` the
`tempfile.NamedTemporaryFile` name (l.156), `gitInfo` the `_git_info()`
string (l.172). -/
def mkJobScript (sample_name job_suffix outdir : String)
    (threads memory : PyNum)
    (linkdir webpath tempdir queue conda_env modules : Option String)
    (wait_for : Option (List String)) (copy_input : Bool)
    (scriptExists : Bool) (scratchName : String) (gitInfo : String) :
    Except PyErr JS :=
  let jobname := sample_name ++ "_" ++ job_suffix
  let tempdirV :=
    if pyTruthy tempdir then pyRealpath (pyJoin (tempdir.getD "") jobname)
    else outdir
  -- _make_dir(self.outdir): any OSError is swallowed (l.17-22, l.95).
  match threads, memory with
  | PyNum.int t, PyNum.int m =>
    match linkdir with
    | none => Except.error PyErr.typeError   -- os.makedirs(None), l.103
    | some _ =>
      let modulesV :=
        if pyTruthy modules then some (pySplitChar ',' (modules.getD ""))
        else none
      let parent := pyHeadOfSplit outdir
      let outP := pyJoin (pyJoin parent "logs") (jobname ++ ".out")
      let errP := pyJoin (pyJoin parent "logs") (jobname ++ ".err")
      let shP := pyJoin (pyJoin parent "sh") (jobname ++ ".sh")
      let filenameV := if scriptExists then scratchName else shP
      let deleteShV := scriptExists
      -- _write_header, l.159-180; `assert self.queue in ['short','long']`
      -- (l.163) runs only when the queue string is truthy.
      if pyTruthy queue ∧ queue.getD "" ∉ (["short", "long"] : List String)
      then Except.error PyErr.assertionError
      else if t = 0 then Except.error PyErr.zeroDivisionError
      else
        let headerQueue :=
          if pyTruthy queue then [Chunk.raw ("#$ -q " ++ queue.getD "" ++ "\n")]
          else []
        let moduleChunks :=
          if pyTruthy modules then
            (pySplitChar ',' (modules.getD "")).map
              (fun mo => Chunk.raw ("module load " ++ mo ++ "\n\n"))
          else []
        let condaChunks :=
          if pyTruthy conda_env
          then [Chunk.raw ("source activate " ++ conda_env.getD "" ++ "\n\n")]
          else []
        let tempdirChunks :=
          if tempdirV ≠ "" then
            [Chunk.raw ("mkdir -p " ++ tempdirV ++ "\n"),
             Chunk.raw ("cd " ++ tempdirV ++ "\n\n")]
          else []
        Except.ok
          { sample_name := sample_name
            job_suffix := job_suffix
            jobname := jobname
            outdir := outdir
            tempdir := tempdirV
            threads := t
            memory := m
            linkdir := linkdir
            webpath := webpath
            queue := queue
            conda_env := conda_env
            modules := modulesV
            out := outP
            err := errP
            wait_for := wait_for
            copy_input := copy_input
            input_files_to_copy := []
            output_files_to_copy := []
            temp_files_to_delete := []
            softlinks := []
            delete_sh := deleteShV
            links_tracklines := pyJoin outdir "links_tracklines.txt"
            filename := filenameV
            script :=
              [Chunk.raw "#!/bin/bash\n\n"] ++ headerQueue ++
              [Chunk.raw ("#$ -N " ++ jobname ++ "\n"),
               Chunk.vmem ((m : ℚ) / (t : ℚ)),
               Chunk.raw ("#$ -pe smp " ++ toString t ++ "\n"),
               Chunk.raw "#$ -S /bin/bash\n",
               Chunk.raw ("#$ -o " ++ outP ++ "\n"),
               Chunk.raw ("#$ -e " ++ errP ++ "\n\n"),
               Chunk.raw ("# Git repository version:\n# " ++ gitInfo ++ "\n\n")] ++
              moduleChunks ++ condaChunks ++ tempdirChunks }
  | _, _ => Except.error PyErr.assertionError

/-- Result of `JobScript.write_end` (general.py l.317-323): the state
after all file writes that happened (kept even when an exception is
raised later in the method), the exception propagated if any, and the
path passed to `os.remove` (l.323) if that statement was reached. -/
structure WriteEndResult where
  state : JS
  exc : Option PyErr
  removedPath : Option String
  deriving Repr, DecidableEq

/-- The module `cdpipelines.general` binds no top-level name `job`;
`JobScript.softlink` (l.234) and `make_md5sum` (l.330) nevertheless
read the global `job`, so that lookup raises `NameError` at run time. -/
def moduleGlobal_job : Option JS := none

/-- Embedded `JobScript.temp_file_path` (general.py l.302-304). -/
def JS.temp_file_path (js : JS) (fn : String) : String :=
  pyJoin js.tempdir (pyBasename fn)

/-- Embedded `JobScript.add_temp_file` (general.py l.278-283).  The
docstring promises to add `fn` to `self.temp_files_to_delete`, but the
body only appends to `self.output_files_to_copy` when `copy` is true
and returns the temp path; `temp_files_to_delete` is never touched. -/
def JS.add_temp_file (js : JS) (fn : String) (copy : Bool) : JS × String :=
  (if copy then
    { js with output_files_to_copy := js.output_files_to_copy ++ [fn] }
   else js,
   js.temp_file_path fn)

/-- Embedded `JobScript.add_input_file` (general.py l.285-300); the
`copy` parameter is the Python tri-state `True`/`False`/`None`. -/
def JS.add_input_file (js : JS) (fn : String) (copy : Option Bool) :
    JS × String :=
  let copyFinal :=
    match copy with
    | some true => true
    | some false => false
    | none => js.copy_input
  let js1 :=
    if copyFinal then
      { js with input_files_to_copy := js.input_files_to_copy ++ [fn] }
    else js
  (js1, if copyFinal then js.temp_file_path fn else pyRealpath fn)

/-- Embedded `JobScript.copy_input_files` (general.py l.306-315): one
batched `rsync` of all registered inputs into `tempdir`, then each
in-tempdir path is appended to `temp_files_to_delete`. -/
def JS.copy_input_files (js : JS) : JS :=
  if js.input_files_to_copy ≠ [] then
    { js with
      script := js.script ++ [Chunk.rsync js.input_files_to_copy js.tempdir]
      temp_files_to_delete :=
        js.temp_files_to_delete ++
          js.input_files_to_copy.map
            (fun x => pyJoin js.tempdir (pyBasename x)) }
  else js

/-- Embedded `JobScript.sge_submit_command` (general.py l.270-276). -/
def JS.sge_submit_command (js : JS) : String :=
  if pyTruthyList js.wait_for then
    "qsub -hold_jid " ++ pyJoinWith "," (js.wait_for.getD []) ++ " " ++
      js.filename
  else "qsub " ++ js.filename

/-- Embedded `JobScript._copy_output_files` (general.py l.182-188). -/
def JS.copy_output_files (js : JS) : JS :=
  if js.output_files_to_copy ≠ [] ∧
      pyRealpath js.tempdir ≠ pyRealpath js.outdir then
    { js with
      script := js.script ++ [Chunk.rsync js.output_files_to_copy js.outdir] }
  else js

/-- Embedded `JobScript._delete_temp_files` (general.py l.190-200):
when the temp list is non-empty, paths also registered in
`output_files_to_copy` are filtered out if `tempdir` and `outdir`
resolve to the same directory, and one `rm -r` is written for the
(possibly emptied) remainder.  The source also keeps the filter when
`self.tempdir is None`; in this model `tempdir` is always a string. -/
def JS.delete_temp_files (js : JS) : JS :=
  if js.temp_files_to_delete ≠ [] then
    let remaining :=
      if pyRealpath js.tempdir = pyRealpath js.outdir then
        js.temp_files_to_delete.filter
          (fun x => ! js.output_files_to_copy.contains x)
      else js.temp_files_to_delete
    { js with
      temp_files_to_delete := remaining
      script := js.script ++ [Chunk.rm remaining] }
  else js

/-- Embedded `JobScript._delete_tempdir` (general.py l.202-206). -/
def JS.delete_tempdir (js : JS) : JS :=
  if js.tempdir ≠ "" ∧ pyRealpath js.tempdir ≠ pyRealpath js.outdir then
    { js with script := js.script ++ [Chunk.raw ("rm -r " ++ js.tempdir ++ "\n")] }
  else js

/-- Embedded `JobScript.softlink` (general.py l.215-236).  The body
opens `job.filename` (l.234), but `job` is an unbound module-level
name, so the call raises `NameError` before writing anything; the
would-be behaviour on a bound global is kept for reference. -/
def JS.softlink (_js : JS) (target link : String) :
    Except PyErr (JS × String) :=
  match moduleGlobal_job with
  | none => Except.error PyErr.nameError
  | some j =>
      Except.ok ({ j with script := j.script ++ [Chunk.lnS target link] }, link)

/-- Embedded `JobScript._make_softlinks` (general.py l.208-213): loops
over the registered pairs calling `self.softlink`; with a non-empty
list the first call raises `NameError` (unbound global `job`, l.234)
before any write, with an empty list nothing is written. -/
def JS.make_softlinks (js : JS) : JS × Option PyErr :=
  match js.softlinks with
  | [] => (js, none)
  | (t, l) :: _ =>
    match js.softlink t l with
    | Except.error e => (js, some e)
    | Except.ok (j2, _) => (j2, none)   -- unreachable: moduleGlobal_job = none

/-- Embedded `JobScript.add_softlink` (general.py l.238-268).  Both
branches reference names that are unbound at run time — the
not-in branch uses bare `sample_name` (l.262) and the else branch uses
`fn` (l.265) — so every call raises `NameError`; the `link_name`
parameter is never read by the body. -/
def JS.add_softlink (js : JS) (target : String)
    (_link_name : Option String) : Except PyErr (JS × String) :=
  if pyInStr js.sample_name (pyBasename target) then
    Except.error PyErr.nameError   -- l.265: unbound local `fn`
  else
    Except.error PyErr.nameError   -- l.262: unbound global `sample_name`

/-- Embedded `JobScript.write_end` (general.py l.317-323): runs
`_copy_output_files`, `_delete_temp_files`, `_delete_tempdir`,
`_make_softlinks` in that order; if all succeed and `delete_sh` is set,
executes `os.remove(self.jobname)` — note the argument is the job name,
not `self.filename`. -/
def JS.write_end (js : JS) : WriteEndResult :=
  let j1 := js.copy_output_files
  let j2 := j1.delete_temp_files
  let j3 := j2.delete_tempdir
  match j3.make_softlinks with
  | (j4, some e) => { state := j4, exc := some e, removedPath := none }
  | (j4, none) =>
      if j4.delete_sh then
        { state := j4, exc := none, removedPath := some j4.jobname }
      else { state := j4, exc := none, removedPath := none }

/-- The `pipeline` function in `cdpipelines/rnaseq.py` (l.449-1216)
never binds a name `job_holds`; the submission-script loop
(l.1205-1209) nevertheless reads it. -/
def moduleGlobal_job_holds : Option (List (String × List String)) := none

/-- The method called as `job.sge_submit_comand()` throughout
`cdpipelines/rnaseq.py` (l.643, 674, ... 1197); neither `JobScript`
(general.py) nor `RNAJobScript` (rnaseq.py) defines it — the defined
method is `sge_submit_command` (general.py l.270) — so every call
raises `AttributeError`. -/
def JS.sge_submit_comand (_js : JS) : Except PyErr String :=
  Except.error PyErr.attributeError

/-- Embedded submission-script writer of `pipeline`
(cdpipelines/rnaseq.py l.1199-1214): writes the shebang, then loops
`jn, holds = job_holds.popitem(False)` inside `try`/bare `except:`;
`job_holds` is unbound, so the first iteration raises `NameError`,
which the bare `except:` swallows and the loop breaks — the collected
`submit_commands` list is never written.  The lines the loop would
write on a bound `job_holds` are kept for reference. -/
def submissionScript (outdir : String) (_submit_commands : List String) :
    List String :=
  match moduleGlobal_job_holds with
  | none => ["#!/bin/bash\n\n"]
  | some pairs =>
      "#!/bin/bash\n\n" ::
        pairs.map (fun p =>
          if p.2 ≠ [] then
            "qsub -hold_jid " ++ pyJoinWith "," p.2 ++ " " ++
              pyJoin outdir p.1 ++ ".sh\n"
          else "qsub " ++ pyJoin outdir p.1 ++ ".sh\n")

/-- Rational payloads of the `h_vmem` directives in a script. -/
def scriptVmemDirectives (cs : List Chunk) : List ℚ :=
  cs.filterMap (fun c => match c with | Chunk.vmem q => some q | _ => none)

/-- All targets of `rm -r` chunks in a script. -/
def scriptRmTargets (cs : List Chunk) : List String :=
  cs.flatMap (fun c => match c with | Chunk.rm ts => ts | _ => [])

/-- All destination arguments of batched `rsync` chunks in a script. -/
def scriptRsyncDests (cs : List Chunk) : List String :=
  cs.filterMap (fun c => match c with | Chunk.rsync _ d => some d | _ => none)

/-- All arguments (sources and destination) of batched `rsync` chunks
in a script. -/
def scriptRsyncArgs (cs : List Chunk) : List String :=
  cs.flatMap (fun c => match c with | Chunk.rsync ss d => ss ++ [d] | _ => [])

/-- A representative constructed `JobScript` state: sample `s1`, stage
suffix `align`, output directory `/res/align`, temp directory distinct
from the output directory, no files registered yet. -/
def jobBase : JS :=
  { sample_name := "s1"
    job_suffix := "align"
    jobname := "s1_align"
    outdir := "/res/align"
    tempdir := "/scr/s1_align"
    threads := 1
    memory := 4
    linkdir := some "/links"
    webpath := none
    queue := none
    conda_env := none
    modules := none
    out := "/res/logs/s1_align.out"
    err := "/res/logs/s1_align.err"
    wait_for := none
    copy_input := false
    input_files_to_copy := []
    output_files_to_copy := []
    temp_files_to_delete := []
    softlinks := []
    delete_sh := false
    links_tracklines := "/res/align/links_tracklines.txt"
    filename := "/res/sh/s1_align.sh"
    script := [] }

/-- `jobBase` with one declared output and one declared temporary
(Scenario C shape: `tempdir` distinct from `outdir`). -/
def jobC2 : JS :=
  { jobBase with
    output_files_to_copy := ["/scr/s1_align/out.bam"]
    temp_files_to_delete := ["/scr/s1_align/tmp.bam"] }

/-- `jobC2` with one deferred softlink pair registered. -/
def jobC2links : JS :=
  { jobC2 with softlinks := [("/res/align/out.bam", "/links/s1_align_out.bam")] }

/-- Job whose temp directory equals its output directory, with a path
registered both as a temporary and as a published output. -/
def jobC3eq : JS :=
  { jobBase with
    tempdir := "/res/align"
    temp_files_to_delete := ["/res/align/a.txt", "/res/align/b.txt"]
    output_files_to_copy := ["/res/align/a.txt"] }

/-- C1: the submission-script writer of `pipeline` emits no
scheduler-submit line at all — regardless of the collected submit
commands it writes only the shebang, because the loop reads the unbound
name `job_holds` and the bare `except:` swallows the `NameError` — and
each `job.sge_submit_comand()` call that was meant to record a stage's
submit command raises `AttributeError`, so the claimed one-line-per-
stage submission script is never produced. -/
theorem c1_submission_script_has_no_submit_lines :
    (∀ (outdir : String) (cmds : List String),
        submissionScript outdir cmds = ["#!/bin/bash\n\n"]) ∧
    (∀ js : JS, js.sge_submit_comand = Except.error PyErr.attributeError) := by
  constructor
  · intro outdir cmds; rfl
  · intro js; rfl

/-- C2: on a Job with `tempdir` distinct from `outdir`, one declared
output, one declared temporary and no deferred softlinks, `write_end`
appends exactly the copy-outputs block, then the delete-temporaries
block naming the temporary, then `rm -r` of the temp directory, in that
order and exactly once; but as soon as one softlink pair is registered,
the materialize-links step raises `NameError` (the `softlink` method
writes to the unbound module global `job`), so no `ln -s` line is ever
appended to the script. -/
theorem c2_write_end_block_order_and_links_failure :
    (jobC2.write_end).state.script =
      [Chunk.rsync ["/scr/s1_align/out.bam"] "/res/align",
       Chunk.rm ["/scr/s1_align/tmp.bam"],
       Chunk.raw "rm -r /scr/s1_align\n"] ∧
    (jobC2.write_end).exc = none ∧
    (jobC2links.write_end).exc = some PyErr.nameError ∧
    (jobC2links.write_end).state.script =
      [Chunk.rsync ["/scr/s1_align/out.bam"] "/res/align",
       Chunk.rm ["/scr/s1_align/tmp.bam"],
       Chunk.raw "rm -r /scr/s1_align\n"] := by decide

/-- C4: `add_temp_file` never registers its argument in the Job's
temporary set — `temp_files_to_delete` is unchanged for every job,
path and `copy` flag — and consequently on a fresh job the finalize
step emits no deletion command naming the declared temporary at all. -/
theorem c4_add_temp_file_does_not_register_temporary :
    (∀ (js : JS) (fn : String) (c : Bool),
        ((js.add_temp_file fn c).1).temp_files_to_delete =
          js.temp_files_to_delete) ∧
    scriptRmTargets
        ((((jobBase.add_temp_file "/scr/s1_align/x.bam" false).1).write_end).state.script) =
      [] := by
  constructor
  · intro js fn c; cases c <;> rfl
  · decide

/-- C6 counterexample: for a staged input `/data/in.txt` on `jobBase`
(temp directory `/scr/s1_align`), `add_input_file(copy=True)` returns
`/scr/s1_align/in.txt`, but the batched copy command emitted by
`copy_input_files` has the temp directory itself as its only
destination argument, and the returned path occurs nowhere among the
command's arguments — contradicting the claim that the returned path
appears verbatim as a copy-destination argument. -/
theorem c6_counterexample_returned_path_not_an_argument :
    (jobBase.add_input_file "/data/in.txt" (some true)).2 =
      "/scr/s1_align/in.txt" ∧
    scriptRsyncDests
        (((jobBase.add_input_file "/data/in.txt" (some true)).1.copy_input_files).script) =
      ["/scr/s1_align"] ∧
    (jobBase.add_input_file "/data/in.txt" (some true)).2 ∉
      scriptRsyncArgs
        (((jobBase.add_input_file "/data/in.txt" (some true)).1.copy_input_files).script) := by
  decide

/-- C7 counterexample: `threads = -2` is not a positive integer, yet
construction succeeds — the source only asserts `type(threads) is int`
and never checks positivity (and no `ConfigError` class exists). -/
theorem c7_counterexample_negative_threads_accepted :
    (mkJobScript "s1" "align" "/res/align" (PyNum.int (-2)) (PyNum.int 4)
        (some "/links") none none none none none none false false
        "/tmp/tmpscratch" "GIT").isOk = true := by decide

/-- C8: a Job constructed while its script path already exists is
redirected to the scratch script (so the pre-existing script at
`/res/sh/s1_align.sh` is never written), but `write_end` then passes
`self.jobname` — the string `s1_align`, not the scratch script path —
to `os.remove`, so the scratch script file is never deleted. -/
theorem c8_write_end_removes_jobname_not_scratch_script :
    (mkJobScript "s1" "align" "/res/align" (PyNum.int 1) (PyNum.int 4)
        (some "/links") none none none none none none false true
        "/tmp/tmpAbC123" "GIT").toOption.map
        (fun js => (js.filename, js.delete_sh, (js.write_end).removedPath,
                    js.jobname)) =
      some ("/tmp/tmpAbC123", true, some "s1_align", "s1_align") ∧
    ("/tmp/tmpAbC123" : String) ≠ "s1_align" ∧
    ("/tmp/tmpAbC123" : String) ≠ "/res/sh/s1_align.sh" := by decide

/-- C9: `add_softlink` raises `NameError` on every call — in the
branch where the target's base name lacks the sample id it reads the
unbound global `sample_name` (l.262), and in the branch where the base
name contains the sample id it reads the unbound local `fn` (l.265) —
so no link name is ever derived and no pair is recorded.  The last two
conjuncts show the two concrete calls exercise the two branches. -/
theorem c9_add_softlink_always_raises_nameerror :
    jobBase.add_softlink "/res/align/s1_sorted.bam" none =
        Except.error PyErr.nameError ∧
    jobBase.add_softlink "/res/align/other.bam" none =
        Except.error PyErr.nameError ∧
    pyInStr jobBase.sample_name (pyBasename "/res/align/s1_sorted.bam") = true ∧
    pyInStr jobBase.sample_name (pyBasename "/res/align/other.bam") = false :=
  ⟨rfl, rfl, by decide, by decide⟩

/-- C10: constructing a Job with `linkdir=None` always raises the
uncaught non-`OSError` exception from `os.makedirs(None)` — for every
choice of the other arguments, including queue values and thread counts
that would themselves fail later in `_write_header`, which shows the
failure happens before the script header is written. -/
theorem c10_construction_with_no_linkdir_raises (sn sf od : String)
    (t m : ℤ) (webpath tempdir queue conda_env modules : Option String)
    (wf : Option (List String)) (ci se : Bool) (scr gi : String) :
    mkJobScript sn sf od (PyNum.int t) (PyNum.int m) none webpath tempdir
        queue conda_env modules wf ci se scr gi =
      Except.error PyErr.typeError := rfl

/-- The first component of `make_softlinks` is the unchanged job state:
`softlink` raises before writing (unbound global `job`), so no chunk is
ever appended by the loop. -/
theorem make_softlinks_fst (js : JS) : (js.make_softlinks).1 = js := by
  cases h : js.softlinks with
  | nil => simp [JS.make_softlinks, h]
  | cons p t =>
      obtain ⟨a, b⟩ := p
      simp [JS.make_softlinks, JS.softlink, moduleGlobal_job, h]

/-- The state after `write_end` is the state after the first three
finalize steps (the links step and the `os.remove` do not change the
script). -/
theorem write_end_state (js : JS) :
    (js.write_end).state =
      ((js.copy_output_files).delete_temp_files).delete_tempdir := by
  unfold JS.write_end
  dsimp only
  rcases h :
      (((js.copy_output_files).delete_temp_files).delete_tempdir).make_softlinks
    with ⟨j4, e⟩
  have h1 :
      j4 = ((js.copy_output_files).delete_temp_files).delete_tempdir := by
    have h2 :=
      make_softlinks_fst (((js.copy_output_files).delete_temp_files).delete_tempdir)
    rw [h] at h2
    exact h2
  cases e with
  | none =>
      dsimp only
      split <;> simp [h1]
  | some e2 =>
      dsimp only
      simp [h1]

/-- `delete_temp_files` does not change the temp directory field. -/
theorem delete_temp_files_tempdir (js : JS) :
    (js.delete_temp_files).tempdir = js.tempdir := by
  unfold JS.delete_temp_files; split <;> rfl

/-- `delete_temp_files` does not change the output directory field. -/
theorem delete_temp_files_outdir (js : JS) :
    (js.delete_temp_files).outdir = js.outdir := by
  unfold JS.delete_temp_files; split <;> rfl

/-- When temp and output directory resolve to the same path, the
copy-outputs block is skipped. -/
theorem copy_output_files_of_same_dir (js : JS)
    (h : pyRealpath js.tempdir = pyRealpath js.outdir) :
    js.copy_output_files = js := by
  unfold JS.copy_output_files
  simp [h]

/-- When temp and output directory resolve to the same path, the
temp-directory removal is skipped. -/
theorem delete_tempdir_of_same_dir (js : JS)
    (h : pyRealpath js.tempdir = pyRealpath js.outdir) :
    js.delete_tempdir = js := by
  unfold JS.delete_tempdir
  simp [h]

/-- C3: for every Job whose temp directory equals its output directory,
a path registered both as a temporary and as a published output never
appears among the targets of the deletion command that `write_end`
appends to the script. -/
theorem c3_no_published_output_in_delete_command (js : JS) (p : String)
    (hdir : js.tempdir = js.outdir)
    (ht : p ∈ js.temp_files_to_delete)
    (ho : p ∈ js.output_files_to_copy) :
    p ∉ scriptRmTargets ((js.write_end).state.script.drop js.script.length) := by
  have hrp : pyRealpath js.tempdir = pyRealpath js.outdir := by rw [hdir]
  rw [write_end_state, copy_output_files_of_same_dir js hrp]
  have hrp2 :
      pyRealpath (js.delete_temp_files).tempdir =
        pyRealpath (js.delete_temp_files).outdir := by
    rw [delete_temp_files_tempdir, delete_temp_files_outdir]
    exact hrp
  rw [delete_tempdir_of_same_dir _ hrp2]
  have hne : js.temp_files_to_delete ≠ [] := by
    intro hnil
    rw [hnil] at ht
    exact absurd ht (List.not_mem_nil p)
  unfold JS.delete_temp_files
  rw [if_pos hne, if_pos hrp]
  intro hmem
  rw [List.drop_left] at hmem
  simp only [scriptRmTargets, List.flatMap_cons, List.flatMap_nil,
    List.append_nil] at hmem
  rw [List.mem_filter] at hmem
  have hcontains : js.output_files_to_copy.contains p = false := by
    cases hcc : js.output_files_to_copy.contains p
    · rfl
    · rw [hcc] at hmem
      simp at hmem
  simp at hcontains
  exact hcontains ho

/-- Witness for C3 at a concrete job: `jobC3eq` has
`tempdir = outdir = /res/align` and registers `/res/align/a.txt` both
as a temporary and as an output; the deletion command emitted by
`write_end` does not name it. -/
theorem c3_witness :
    "/res/align/a.txt" ∉
      scriptRmTargets
        ((jobC3eq.write_end).state.script.drop jobC3eq.script.length) :=
  c3_no_published_output_in_delete_command jobC3eq "/res/align/a.txt" rfl
    (by decide) (by decide)

/-- The `h_vmem` payloads of a concatenation. -/
theorem scriptVmemDirectives_append (a b : List Chunk) :
    scriptVmemDirectives (a ++ b) =
      scriptVmemDirectives a ++ scriptVmemDirectives b := by
  simp [scriptVmemDirectives, List.filterMap_append]

/-- A list of raw module-load lines contributes no `h_vmem` payload. -/
theorem scriptVmemDirectives_map_raw (g : String → String) (l : List String) :
    scriptVmemDirectives (l.map (fun s => Chunk.raw (g s))) = [] := by
  induction l with
  | nil => rfl
  | cons a t ih => simp [scriptVmemDirectives, List.filterMap_cons] at ih ⊢

/-- C5: every successfully constructed Job's script header carries
exactly one memory-per-thread directive, and its value is
`memory / threads` (the float division of general.py l.166-167,
modelled exactly over `ℚ`). -/
theorem c5_header_vmem_directive (sn sf od : String) (t m : ℤ)
    (ld wp td qu ce mo : Option String) (wf : Option (List String))
    (ci se : Bool) (scr gi : String) (js : JS)
    (h : mkJobScript sn sf od (PyNum.int t) (PyNum.int m) ld wp td qu ce mo
          wf ci se scr gi = Except.ok js) :
    scriptVmemDirectives js.script = [(m : ℚ) / (t : ℚ)] := by
  cases ld with
  | none => simp [mkJobScript] at h
  | some l =>
      simp only [mkJobScript] at h
      by_cases hq :
          pyTruthy qu ∧ qu.getD "" ∉ (["short", "long"] : List String)
      · rw [if_pos hq] at h
        simp at h
      · rw [if_neg hq] at h
        by_cases ht : t = 0
        · rw [if_pos ht] at h
          simp at h
        · rw [if_neg ht] at h
          injection h with h2
          subst h2
          simp only [scriptVmemDirectives_append]
          split_ifs <;>
            simp [scriptVmemDirectives, List.filterMap_cons,
              scriptVmemDirectives_map_raw]

/-- Witness for C5 (Scenario A): a Job constructed with `threads = 4`
and `memory = 8` carries the single memory-per-thread directive `2`. -/
theorem c5_witness_threads4_memory8 :
    ∃ js, mkJobScript "s1" "align" "/res/align" (PyNum.int 4) (PyNum.int 8)
        (some "/links") none none none none none none false false
        "/tmp/tmpscratch2" "GIT" = Except.ok js ∧
      scriptVmemDirectives js.script = [(2 : ℚ)] := by
  rcases h : mkJobScript "s1" "align" "/res/align" (PyNum.int 4) (PyNum.int 8)
      (some "/links") none none none none none none false false
      "/tmp/tmpscratch2" "GIT" with e | js
  · have h2 : (mkJobScript "s1" "align" "/res/align" (PyNum.int 4)
        (PyNum.int 8) (some "/links") none none none none none none false
        false "/tmp/tmpscratch2" "GIT").isOk = true := by decide
    rw [h] at h2
    simp [Except.isOk, Except.toBool] at h2
  · refine ⟨js, rfl, ?_⟩
    have hv := c5_header_vmem_directive (h := h)
    rw [hv]
    norm_num

/-- C6 (amended): `add_input_file(copy=True)` returns the temp
directory joined with the source's base name; `copy_input_files` then
emits one batched copy whose sole destination argument is the temp
directory itself (the returned path is not an argument of the command),
and registers the returned path for deletion in `temp_files_to_delete`.
So the staged copy lands at the returned path, but the path reaches the
command only through its parent directory. -/
theorem c6_amended_staging_roundtrip (js : JS) (fn : String) :
    (js.add_input_file fn (some true)).2 = pyJoin js.tempdir (pyBasename fn) ∧
    ((js.add_input_file fn (some true)).1.copy_input_files).script =
      (js.add_input_file fn (some true)).1.script ++
        [Chunk.rsync ((js.add_input_file fn (some true)).1.input_files_to_copy)
            js.tempdir] ∧
    (js.add_input_file fn (some true)).2 ∈
      ((js.add_input_file fn (some true)).1.copy_input_files).temp_files_to_delete := by
  refine ⟨?_, ?_, ?_⟩
  · simp [JS.add_input_file, JS.temp_file_path]
  · simp [JS.add_input_file, JS.copy_input_files]
  · simp [JS.add_input_file, JS.copy_input_files, JS.temp_file_path]

/-- C7 (amended): with a non-`None` link directory, construction
succeeds exactly when `threads` is a nonzero integer, `memory` is an
integer, and the queue is falsy or one of `short`/`long`; positivity is
never required (negative thread counts are accepted), the failures are
`AssertionError`/`ZeroDivisionError` rather than a `ConfigError` (no
such class exists in the source). -/
theorem c7_amended_construction_success_iff (sn sf od : String)
    (threads memory : PyNum) (l : String)
    (wp td qu ce mo : Option String) (wf : Option (List String))
    (ci se : Bool) (scr gi : String) :
    (mkJobScript sn sf od threads memory (some l) wp td qu ce mo wf ci se
        scr gi).isOk = true ↔
      ((∃ t : ℤ, threads = PyNum.int t ∧ t ≠ 0) ∧
        (∃ m : ℤ, memory = PyNum.int m) ∧
        (pyTruthy qu = false ∨
          qu.getD "" ∈ (["short", "long"] : List String))) := by
  cases threads with
  | int t =>
      cases memory with
      | int m =>
          simp only [mkJobScript]
          by_cases hq :
              pyTruthy qu ∧ qu.getD "" ∉ (["short", "long"] : List String)
          · rw [if_pos hq]
            obtain ⟨hq1, hq2⟩ := hq
            simp [Except.isOk, Except.toBool, hq1, hq2]
          · rw [if_neg hq]
            by_cases ht : t = 0
            · rw [if_pos ht]
              simp [Except.isOk, Except.toBool, ht]
            · rw [if_neg ht]
              simp only [Except.isOk]
              constructor
              · intro _
                refine ⟨⟨t, rfl, ht⟩, ⟨m, rfl⟩, ?_⟩
                by_cases hqt : pyTruthy qu = true
                · right
                  by_contra hnm
                  exact hq ⟨hqt, hnm⟩
                · left
                  cases hb : pyTruthy qu
                  · rfl
                  · exact absurd hb hqt
              · intro _
                rfl
      | float q2 => simp [mkJobScript, Except.isOk, Except.toBool]
      | str s2 => simp [mkJobScript, Except.isOk, Except.toBool]
  | float q =>
      cases memory <;> simp [mkJobScript, Except.isOk, Except.toBool]
  | str s =>
      cases memory <;> simp [mkJobScript, Except.isOk, Except.toBool]
